import Mathlib

/-!
Shallow embedding of `q2_sample_classifier/classify.py`.

Every entry point of the file is a thin binding: it builds an estimator and a
hyperparameter search-space dictionary, forwards them to the external pipeline
function `split_optimize_classify`, and forwards the result to the external
report writer `visualize`.  The external collaborators
(`load_data`, `tune_parameters`, `split_optimize_classify`, `visualize`, and
the `predict` method of a fitted estimator) live outside this file; they are
modelled as an abstract environment whose operations may fail
(`Except String`), so that propagation of collaborator failures can be stated.
Each embedded entry point returns the trace of collaborator calls and warnings
it performed together with its result.  Data the file never inspects (tables,
metadata, confusion matrices, scores, importance rankings) is modelled by
opaque natural-number handles.  Default argument values of the Python
signatures are irrelevant to the properties proved here, which quantify over
every caller-supplied value, so parameters are taken explicitly.
-/

set_option autoImplicit false

namespace Q2Classify

/-- A Python scalar literal appearing in a hyperparameter search-space
dictionary.  A decimal float literal is represented exactly by its digits:
`float m e` stands for the literal with value `m / 10 ^ e` (so `0.001` is
`float 1 3` and `1.0` is `float 10 1`); the file only stores these literals
and forwards them, it never computes with them. -/
inductive PyVal where
  | int (n : Int)
  | float (m e : Nat)
  | str (s : String)
  | bool (b : Bool)
  | pynone
  deriving DecidableEq

/-- A value of a hyperparameter search-space dictionary: either a literal list
of candidate values or a `scipy.stats.randint(lo, hi)` distribution. -/
inductive PDVal where
  | list (vs : List PyVal)
  | randint (lo hi : Int)
  deriving DecidableEq

/-- A hyperparameter search-space dictionary, as an ordered association list
(Python dicts preserve insertion order). -/
abbrev ParamDist := List (String × PDVal)

/-- The `ensemble_params` dictionary literal. -/
def ensemble_params : ParamDist :=
  [("max_depth", .list [.int 4, .int 8, .int 16, .pynone]),
   ("max_features", .list [.pynone, .str "sqrt", .str "log2", .float 1 1]),
   ("min_samples_split", .list [.float 1 3, .float 1 2, .float 1 1]),
   ("min_weight_fraction_leaf", .list [.float 1 4, .float 1 3, .float 1 2]),
   ("bootstrap", .list [.bool true, .bool false])]

/-- The `linear_svm_params` dictionary literal (the commented-out keys of the
source are absent, as in the source). -/
def linear_svm_params : ParamDist :=
  [("C", .list [.int 1, .float 5 1, .float 1 1, .float 9 1, .float 8 1]),
   ("loss", .list [.str "hinge", .str "squared_hinge"]),
   ("tol", .list [.float 1 5, .float 1 4, .float 1 3])]

/-- The `svm_params` dictionary literal. -/
def svm_params : ParamDist :=
  [("C", .list [.int 1, .float 5 1, .float 1 1, .float 9 1, .float 8 1]),
   ("tol", .list [.float 1 5, .float 1 4, .float 1 3, .float 1 2]),
   ("shrinking", .list [.bool true, .bool false])]

/-- The `neighbors_params` dictionary literal. -/
def neighbors_params : ParamDist :=
  [("n_neighbors", .randint 2 15),
   ("weights", .list [.str "uniform", .str "distance"]),
   ("leaf_size", .randint 15 100)]

/-- The `linear_params` dictionary literal. -/
def linear_params : ParamDist :=
  [("alpha", .list [.float 1 4, .float 1 2, .float 10 1, .float 100 1,
     .float 10000 1]),
   ("tol", .list [.float 1 5, .float 1 4, .float 1 3, .float 1 2])]

/-- An estimator object, identified by the constructor call that built it in
this file.  `external h` stands for an estimator handed back by an external
collaborator (for example the result of `tune_parameters`), about whose
structure the file knows nothing. -/
inductive Estimator where
  | randomForestClassifier (n_jobs n_estimators : Int)
  | extraTreesClassifier (n_jobs n_estimators : Int)
  | adaBoostClassifier (base : Estimator) (n_estimators : Int)
  | gradientBoostingClassifier (n_estimators : Int)
  | randomForestRegressor (n_jobs n_estimators : Int)
  | extraTreesRegressor (n_jobs n_estimators : Int)
  | adaBoostRegressor (base : Estimator) (n_estimators : Int)
  | gradientBoostingRegressor (n_estimators : Int)
  | linearSVC
  | svc (kernel : String)
  | svr (kernel : String)
  | ridge (solver : String)
  | lasso
  | elasticNet
  | kNeighborsClassifier (algorithm : String)
  | kNeighborsRegressor (algorithm : String)
  | decisionTreeClassifier
  | decisionTreeRegressor
  | external (h : Nat)
  deriving DecidableEq

/-- The scoring callable forwarded to `split_optimize_classify`; the file only
ever forwards `sklearn.metrics.mean_squared_error`. -/
inductive Scoring where
  | mean_squared_error
  deriving DecidableEq

/-- A Python warning: its category and its message. -/
structure PyWarning where
  category : String
  message : String
  deriving DecidableEq

/-- Arguments of a `load_data` call. -/
structure LoadArgs where
  table : Nat
  metadata : Nat
  transpose : Bool
  deriving DecidableEq

/-- Arguments of a `tune_parameters` call. -/
structure TuneArgs where
  features : Nat
  targets : Nat
  estimator : Estimator
  param_dist : ParamDist
  n_jobs : Int
  cv : Int
  random_state : Option Int
  deriving DecidableEq

/-- Arguments of a `split_optimize_classify` call.  `scoring` and
`classification` are `none` when the call site does not pass them (leaving the
collaborator defaults in force). -/
structure SOCArgs where
  table : Nat
  metadata : Nat
  category : String
  estimator : Estimator
  output_dir : String
  test_size : Rat
  step : Rat
  cv : Int
  random_state : Option Int
  n_jobs : Int
  optimize_feature_selection : Bool
  parameter_tuning : Bool
  param_dist : ParamDist
  calc_feature_importance : Bool
  scoring : Option Scoring
  classification : Option Bool
  deriving DecidableEq

/-- The four values returned by `split_optimize_classify`: the fitted
estimator and opaque handles for the confusion/error artifact, the score and
the importance ranking. -/
structure SOCResult where
  estimator : Estimator
  cm : Nat
  accuracy : Nat
  importances : Nat
  deriving DecidableEq

/-- Arguments of a `visualize` call. -/
structure VisArgs where
  output_dir : String
  estimator : Estimator
  cm : Nat
  accuracy : Nat
  importances : Nat
  optimize_feature_selection : Bool
  deriving DecidableEq

/-- The external collaborators of the file, as an abstract environment.  Every
operation may fail with a message, modelling an exception raised inside the
collaborator. -/
structure Env where
  load_data : Nat → Nat → Bool → Except String (Nat × (String → Nat))
  tune_parameters : Nat → Nat → Estimator → ParamDist → Int → Int → Option Int →
    Except String Estimator
  split_optimize_classify : SOCArgs → Except String SOCResult
  visualize : VisArgs → Except String Unit
  predict : Estimator → Nat → Except String Nat

/-- The observable behaviour of one call to an entry point: the warnings it
emitted and the collaborator calls it made, in order within each kind. -/
structure Trace where
  warnings : List PyWarning
  load_calls : List LoadArgs
  tune_calls : List TuneArgs
  soc_calls : List SOCArgs
  visualize_calls : List VisArgs
  deriving DecidableEq

/-- The empty trace. -/
def emptyTrace : Trace :=
  { warnings := [], load_calls := [], tune_calls := [], soc_calls := [],
    visualize_calls := [] }

/-- The warning built and emitted by `warn_feature_selection`: a `UserWarning`
with the literal message of the source. -/
def warn_feature_selection : List PyWarning :=
  [{ category := "UserWarning",
     message := "This estimator does not support recursive feature extraction with the parameter settings requested. See documentation or try a different estimator model." }]

/-- The `svm_set` helper: for a linear kernel it enables feature importance
and passes `optimize_feature_selection` through; otherwise it disables both
and emits the feature-selection warning.  Returns the pair
`(calc_feature_importance, optimize_feature_selection)` together with the
warnings emitted. -/
def svm_set (kernel : String) (optimize_feature_selection : Bool) :
    (Bool × Bool) × List PyWarning :=
  if kernel == "linear" then
    ((true, optimize_feature_selection), [])
  else
    ((false, false), warn_feature_selection)

/-- The `visualize` argument list built by every training entry point from the
four results of `split_optimize_classify`, the output directory and the local
value of `optimize_feature_selection`. -/
def visArgsOf (output_dir : String) (r : SOCResult) (ofs : Bool) : VisArgs :=
  { output_dir := output_dir, estimator := r.estimator, cm := r.cm,
    accuracy := r.accuracy, importances := r.importances,
    optimize_feature_selection := ofs }

/-- The shared tail of every training entry point: call
`split_optimize_classify`, then hand its four results to `visualize` together
with `output_dir` and the local value of `optimize_feature_selection`,
propagating a collaborator failure unchanged.  `pre` is the trace accumulated
before this point. -/
def soc_then_visualize (env : Env) (pre : Trace) (a : SOCArgs)
    (output_dir : String) (ofs : Bool) : Trace × Except String Unit :=
  match env.split_optimize_classify a with
  | .error msg => ({ pre with soc_calls := pre.soc_calls ++ [a] }, .error msg)
  | .ok r =>
      let v := visArgsOf output_dir r ofs
      match env.visualize v with
      | .error msg =>
          ({ pre with soc_calls := pre.soc_calls ++ [a],
                      visualize_calls := pre.visualize_calls ++ [v] }, .error msg)
      | .ok _ =>
          ({ pre with soc_calls := pre.soc_calls ++ [a],
                      visualize_calls := pre.visualize_calls ++ [v] }, .ok ())

/-- `classify_SVC`. -/
def classify_SVC (env : Env) (output_dir : String) (table metadata : Nat)
    (category : String) (test_size step : Rat) (cv : Int)
    (random_state : Option Int) (n_jobs : Int) (parameter_tuning : Bool)
    (optimize_feature_selection : Bool) (kernel : String) :
    Trace × Except String Unit :=
  let param_dist := svm_params
  let estimator := Estimator.svc kernel
  let s := svm_set kernel optimize_feature_selection
  let calc_feature_importance := s.1.1
  let ofs := s.1.2
  let a : SOCArgs :=
    { table := table, metadata := metadata, category := category,
      estimator := estimator, output_dir := output_dir, test_size := test_size,
      step := step, cv := cv, random_state := random_state, n_jobs := n_jobs,
      optimize_feature_selection := ofs, parameter_tuning := parameter_tuning,
      param_dist := param_dist,
      calc_feature_importance := calc_feature_importance,
      scoring := none, classification := none }
  soc_then_visualize env { emptyTrace with warnings := s.2 } a output_dir ofs

/-- `regress_SVR`. -/
def regress_SVR (env : Env) (output_dir : String) (table metadata : Nat)
    (category : String) (test_size step : Rat) (cv : Int)
    (random_state : Option Int) (n_jobs : Int) (parameter_tuning : Bool)
    (optimize_feature_selection : Bool) (kernel : String) :
    Trace × Except String Unit :=
  let param_dist := svm_params ++ [("epsilon", PDVal.list [.float 0 1, .float 1 1])]
  let estimator := Estimator.svr kernel
  let s := svm_set kernel optimize_feature_selection
  let calc_feature_importance := s.1.1
  let ofs := s.1.2
  let a : SOCArgs :=
    { table := table, metadata := metadata, category := category,
      estimator := estimator, output_dir := output_dir, test_size := test_size,
      step := step, cv := cv, random_state := random_state, n_jobs := n_jobs,
      optimize_feature_selection := ofs, parameter_tuning := parameter_tuning,
      param_dist := param_dist,
      calc_feature_importance := calc_feature_importance,
      scoring := some Scoring.mean_squared_error, classification := some false }
  soc_then_visualize env { emptyTrace with warnings := s.2 } a output_dir ofs

/-- `classify_random_forest`. -/
def classify_random_forest (env : Env) (output_dir : String)
    (table metadata : Nat) (category : String) (test_size step : Rat)
    (cv : Int) (random_state : Option Int) (n_jobs n_estimators : Int)
    (optimize_feature_selection parameter_tuning : Bool) :
    Trace × Except String Unit :=
  let param_dist := ensemble_params ++
    [("criterion", PDVal.list [.str "gini", .str "entropy"])]
  let estimator := Estimator.randomForestClassifier n_jobs n_estimators
  let a : SOCArgs :=
    { table := table, metadata := metadata, category := category,
      estimator := estimator, output_dir := output_dir, test_size := test_size,
      step := step, cv := cv, random_state := random_state, n_jobs := n_jobs,
      optimize_feature_selection := optimize_feature_selection,
      parameter_tuning := parameter_tuning, param_dist := param_dist,
      calc_feature_importance := true, scoring := none, classification := none }
  soc_then_visualize env emptyTrace a output_dir optimize_feature_selection

/-- `classify_extra_trees`. -/
def classify_extra_trees (env : Env) (output_dir : String)
    (table metadata : Nat) (category : String) (test_size step : Rat)
    (cv : Int) (random_state : Option Int) (n_jobs n_estimators : Int)
    (optimize_feature_selection parameter_tuning : Bool) :
    Trace × Except String Unit :=
  let param_dist := ensemble_params ++
    [("criterion", PDVal.list [.str "gini", .str "entropy"])]
  let estimator := Estimator.extraTreesClassifier n_jobs n_estimators
  let a : SOCArgs :=
    { table := table, metadata := metadata, category := category,
      estimator := estimator, output_dir := output_dir, test_size := test_size,
      step := step, cv := cv, random_state := random_state, n_jobs := n_jobs,
      optimize_feature_selection := optimize_feature_selection,
      parameter_tuning := parameter_tuning, param_dist := param_dist,
      calc_feature_importance := true, scoring := none, classification := none }
  soc_then_visualize env emptyTrace a output_dir optimize_feature_selection

/-- `classify_adaboost`: when `parameter_tuning` is set, load the data and
tune the `DecisionTreeClassifier` base estimator first; the shared pipeline is
then always invoked with `parameter_tuning = false`. -/
def classify_adaboost (env : Env) (output_dir : String)
    (table metadata : Nat) (category : String) (test_size step : Rat)
    (cv : Int) (random_state : Option Int) (n_jobs n_estimators : Int)
    (optimize_feature_selection parameter_tuning : Bool) :
    Trace × Except String Unit :=
  let base_estimator := Estimator.decisionTreeClassifier
  let param_dist := ensemble_params.filter (fun kv => kv.1 != "bootstrap")
  if parameter_tuning then
    match env.load_data table metadata true with
    | .error msg =>
        ({ emptyTrace with load_calls := [⟨table, metadata, true⟩] }, .error msg)
    | .ok (features, targets) =>
        let ta : TuneArgs :=
          { features := features, targets := targets category,
            estimator := base_estimator, param_dist := param_dist,
            n_jobs := n_jobs, cv := cv, random_state := random_state }
        match env.tune_parameters features (targets category) base_estimator
            param_dist n_jobs cv random_state with
        | .error msg =>
            ({ emptyTrace with load_calls := [⟨table, metadata, true⟩],
                               tune_calls := [ta] }, .error msg)
        | .ok tuned =>
            let estimator := Estimator.adaBoostClassifier tuned n_estimators
            let a : SOCArgs :=
              { table := table, metadata := metadata, category := category,
                estimator := estimator, output_dir := output_dir,
                test_size := test_size, step := step, cv := cv,
                random_state := random_state, n_jobs := n_jobs,
                optimize_feature_selection := optimize_feature_selection,
                parameter_tuning := false, param_dist := param_dist,
                calc_feature_importance := true, scoring := none,
                classification := none }
            soc_then_visualize env
              { emptyTrace with load_calls := [⟨table, metadata, true⟩],
                                tune_calls := [ta] } a output_dir optimize_feature_selection
  else
    let estimator := Estimator.adaBoostClassifier base_estimator n_estimators
    let a : SOCArgs :=
      { table := table, metadata := metadata, category := category,
        estimator := estimator, output_dir := output_dir,
        test_size := test_size, step := step, cv := cv,
        random_state := random_state, n_jobs := n_jobs,
        optimize_feature_selection := optimize_feature_selection,
        parameter_tuning := false, param_dist := param_dist,
        calc_feature_importance := true, scoring := none,
        classification := none }
    soc_then_visualize env emptyTrace a output_dir optimize_feature_selection

/-- `classify_gradient_boosting`. -/
def classify_gradient_boosting (env : Env) (output_dir : String)
    (table metadata : Nat) (category : String) (test_size step : Rat)
    (cv : Int) (random_state : Option Int) (n_jobs n_estimators : Int)
    (optimize_feature_selection parameter_tuning : Bool) :
    Trace × Except String Unit :=
  let param_dist := ensemble_params.filter (fun kv => kv.1 != "bootstrap")
  let estimator := Estimator.gradientBoostingClassifier n_estimators
  let a : SOCArgs :=
    { table := table, metadata := metadata, category := category,
      estimator := estimator, output_dir := output_dir, test_size := test_size,
      step := step, cv := cv, random_state := random_state, n_jobs := n_jobs,
      optimize_feature_selection := optimize_feature_selection,
      parameter_tuning := parameter_tuning, param_dist := param_dist,
      calc_feature_importance := true, scoring := none, classification := none }
  soc_then_visualize env emptyTrace a output_dir optimize_feature_selection

/-- `regress_random_forest`. -/
def regress_random_forest (env : Env) (output_dir : String)
    (table metadata : Nat) (category : String) (test_size step : Rat)
    (cv : Int) (random_state : Option Int) (n_jobs n_estimators : Int)
    (optimize_feature_selection parameter_tuning : Bool) :
    Trace × Except String Unit :=
  let param_dist := ensemble_params
  let estimator := Estimator.randomForestRegressor n_jobs n_estimators
  let a : SOCArgs :=
    { table := table, metadata := metadata, category := category,
      estimator := estimator, output_dir := output_dir, test_size := test_size,
      step := step, cv := cv, random_state := random_state, n_jobs := n_jobs,
      optimize_feature_selection := optimize_feature_selection,
      parameter_tuning := parameter_tuning, param_dist := param_dist,
      calc_feature_importance := true,
      scoring := some Scoring.mean_squared_error, classification := some false }
  soc_then_visualize env emptyTrace a output_dir optimize_feature_selection

/-- `regress_extra_trees`. -/
def regress_extra_trees (env : Env) (output_dir : String)
    (table metadata : Nat) (category : String) (test_size step : Rat)
    (cv : Int) (random_state : Option Int) (n_jobs n_estimators : Int)
    (optimize_feature_selection parameter_tuning : Bool) :
    Trace × Except String Unit :=
  let param_dist := ensemble_params
  let estimator := Estimator.extraTreesRegressor n_jobs n_estimators
  let a : SOCArgs :=
    { table := table, metadata := metadata, category := category,
      estimator := estimator, output_dir := output_dir, test_size := test_size,
      step := step, cv := cv, random_state := random_state, n_jobs := n_jobs,
      optimize_feature_selection := optimize_feature_selection,
      parameter_tuning := parameter_tuning, param_dist := param_dist,
      calc_feature_importance := true,
      scoring := some Scoring.mean_squared_error, classification := some false }
  soc_then_visualize env emptyTrace a output_dir optimize_feature_selection

/-- `regress_adaboost`: as `classify_adaboost`, with a
`DecisionTreeRegressor` base estimator and the regression scoring path. -/
def regress_adaboost (env : Env) (output_dir : String)
    (table metadata : Nat) (category : String) (test_size step : Rat)
    (cv : Int) (random_state : Option Int) (n_jobs n_estimators : Int)
    (optimize_feature_selection parameter_tuning : Bool) :
    Trace × Except String Unit :=
  let base_estimator := Estimator.decisionTreeRegressor
  let param_dist := ensemble_params.filter (fun kv => kv.1 != "bootstrap")
  if parameter_tuning then
    match env.load_data table metadata true with
    | .error msg =>
        ({ emptyTrace with load_calls := [⟨table, metadata, true⟩] }, .error msg)
    | .ok (features, targets) =>
        let ta : TuneArgs :=
          { features := features, targets := targets category,
            estimator := base_estimator, param_dist := param_dist,
            n_jobs := n_jobs, cv := cv, random_state := random_state }
        match env.tune_parameters features (targets category) base_estimator
            param_dist n_jobs cv random_state with
        | .error msg =>
            ({ emptyTrace with load_calls := [⟨table, metadata, true⟩],
                               tune_calls := [ta] }, .error msg)
        | .ok tuned =>
            let estimator := Estimator.adaBoostRegressor tuned n_estimators
            let a : SOCArgs :=
              { table := table, metadata := metadata, category := category,
                estimator := estimator, output_dir := output_dir,
                test_size := test_size, step := step, cv := cv,
                random_state := random_state, n_jobs := n_jobs,
                optimize_feature_selection := optimize_feature_selection,
                parameter_tuning := false, param_dist := param_dist,
                calc_feature_importance := true,
                scoring := some Scoring.mean_squared_error,
                classification := some false }
            soc_then_visualize env
              { emptyTrace with load_calls := [⟨table, metadata, true⟩],
                                tune_calls := [ta] } a output_dir optimize_feature_selection
  else
    let estimator := Estimator.adaBoostRegressor base_estimator n_estimators
    let a : SOCArgs :=
      { table := table, metadata := metadata, category := category,
        estimator := estimator, output_dir := output_dir,
        test_size := test_size, step := step, cv := cv,
        random_state := random_state, n_jobs := n_jobs,
        optimize_feature_selection := optimize_feature_selection,
        parameter_tuning := false, param_dist := param_dist,
        calc_feature_importance := true,
        scoring := some Scoring.mean_squared_error,
        classification := some false }
    soc_then_visualize env emptyTrace a output_dir optimize_feature_selection

/-- `regress_gradient_boosting`. -/
def regress_gradient_boosting (env : Env) (output_dir : String)
    (table metadata : Nat) (category : String) (test_size step : Rat)
    (cv : Int) (random_state : Option Int) (n_jobs n_estimators : Int)
    (optimize_feature_selection parameter_tuning : Bool) :
    Trace × Except String Unit :=
  let param_dist := ensemble_params.filter (fun kv => kv.1 != "bootstrap")
  let estimator := Estimator.gradientBoostingRegressor n_estimators
  let a : SOCArgs :=
    { table := table, metadata := metadata, category := category,
      estimator := estimator, output_dir := output_dir, test_size := test_size,
      step := step, cv := cv, random_state := random_state, n_jobs := n_jobs,
      optimize_feature_selection := optimize_feature_selection,
      parameter_tuning := parameter_tuning, param_dist := param_dist,
      calc_feature_importance := true,
      scoring := some Scoring.mean_squared_error, classification := some false }
  soc_then_visualize env emptyTrace a output_dir optimize_feature_selection

/-- `classify_linearSVC`. -/
def classify_linearSVC (env : Env) (output_dir : String)
    (table metadata : Nat) (category : String) (test_size step : Rat)
    (cv : Int) (random_state : Option Int) (n_jobs : Int)
    (parameter_tuning optimize_feature_selection : Bool) :
    Trace × Except String Unit :=
  let param_dist := linear_svm_params
  let estimator := Estimator.linearSVC
  let a : SOCArgs :=
    { table := table, metadata := metadata, category := category,
      estimator := estimator, output_dir := output_dir, test_size := test_size,
      step := step, cv := cv, random_state := random_state, n_jobs := n_jobs,
      optimize_feature_selection := optimize_feature_selection,
      parameter_tuning := parameter_tuning, param_dist := param_dist,
      calc_feature_importance := true, scoring := none, classification := none }
  soc_then_visualize env emptyTrace a output_dir optimize_feature_selection

/-- `regress_ridge`. -/
def regress_ridge (env : Env) (output_dir : String)
    (table metadata : Nat) (category : String) (test_size step : Rat)
    (cv : Int) (random_state : Option Int) (n_jobs : Int)
    (parameter_tuning optimize_feature_selection : Bool) (solver : String) :
    Trace × Except String Unit :=
  let param_dist := linear_params
  let estimator := Estimator.ridge solver
  let a : SOCArgs :=
    { table := table, metadata := metadata, category := category,
      estimator := estimator, output_dir := output_dir, test_size := test_size,
      step := step, cv := cv, random_state := random_state, n_jobs := n_jobs,
      optimize_feature_selection := optimize_feature_selection,
      parameter_tuning := parameter_tuning, param_dist := param_dist,
      calc_feature_importance := true,
      scoring := some Scoring.mean_squared_error, classification := some false }
  soc_then_visualize env emptyTrace a output_dir optimize_feature_selection

/-- `regress_lasso`. -/
def regress_lasso (env : Env) (output_dir : String)
    (table metadata : Nat) (category : String) (test_size step : Rat)
    (cv : Int) (random_state : Option Int) (n_jobs : Int)
    (optimize_feature_selection parameter_tuning : Bool) :
    Trace × Except String Unit :=
  let param_dist := linear_params
  let estimator := Estimator.lasso
  let a : SOCArgs :=
    { table := table, metadata := metadata, category := category,
      estimator := estimator, output_dir := output_dir, test_size := test_size,
      step := step, cv := cv, random_state := random_state, n_jobs := n_jobs,
      optimize_feature_selection := optimize_feature_selection,
      parameter_tuning := parameter_tuning, param_dist := param_dist,
      calc_feature_importance := true,
      scoring := some Scoring.mean_squared_error, classification := some false }
  soc_then_visualize env emptyTrace a output_dir optimize_feature_selection

/-- `regress_elasticnet`. -/
def regress_elasticnet (env : Env) (output_dir : String)
    (table metadata : Nat) (category : String) (test_size step : Rat)
    (cv : Int) (random_state : Option Int) (n_jobs : Int)
    (optimize_feature_selection parameter_tuning : Bool) :
    Trace × Except String Unit :=
  let param_dist := linear_params
  let estimator := Estimator.elasticNet
  let a : SOCArgs :=
    { table := table, metadata := metadata, category := category,
      estimator := estimator, output_dir := output_dir, test_size := test_size,
      step := step, cv := cv, random_state := random_state, n_jobs := n_jobs,
      optimize_feature_selection := optimize_feature_selection,
      parameter_tuning := parameter_tuning, param_dist := param_dist,
      calc_feature_importance := true,
      scoring := some Scoring.mean_squared_error, classification := some false }
  soc_then_visualize env emptyTrace a output_dir optimize_feature_selection

/-- `classify_kneighbors`: has no `optimize_feature_selection` parameter and
hard-codes `optimize_feature_selection = false`,
`calc_feature_importance = false` and a `false` final `visualize` argument. -/
def classify_kneighbors (env : Env) (output_dir : String)
    (table metadata : Nat) (category : String) (test_size step : Rat)
    (cv : Int) (random_state : Option Int) (n_jobs : Int)
    (parameter_tuning : Bool) (algorithm : String) :
    Trace × Except String Unit :=
  let param_dist := neighbors_params
  let estimator := Estimator.kNeighborsClassifier algorithm
  let a : SOCArgs :=
    { table := table, metadata := metadata, category := category,
      estimator := estimator, output_dir := output_dir, test_size := test_size,
      step := step, cv := cv, random_state := random_state, n_jobs := n_jobs,
      optimize_feature_selection := false,
      parameter_tuning := parameter_tuning, param_dist := param_dist,
      calc_feature_importance := false, scoring := none, classification := none }
  soc_then_visualize env emptyTrace a output_dir false

/-- `regress_kneighbors`: as `classify_kneighbors`, on the regression path. -/
def regress_kneighbors (env : Env) (output_dir : String)
    (table metadata : Nat) (category : String) (test_size step : Rat)
    (cv : Int) (random_state : Option Int) (n_jobs : Int)
    (parameter_tuning : Bool) (algorithm : String) :
    Trace × Except String Unit :=
  let param_dist := neighbors_params
  let estimator := Estimator.kNeighborsRegressor algorithm
  let a : SOCArgs :=
    { table := table, metadata := metadata, category := category,
      estimator := estimator, output_dir := output_dir, test_size := test_size,
      step := step, cv := cv, random_state := random_state, n_jobs := n_jobs,
      optimize_feature_selection := false,
      parameter_tuning := parameter_tuning, param_dist := param_dist,
      calc_feature_importance := false,
      scoring := some Scoring.mean_squared_error, classification := some false }
  soc_then_visualize env emptyTrace a output_dir false

/-- `classify_new_data`: predict directly on the (untransformed) table with
the supplied trained estimator and return the predictions. -/
def classify_new_data (env : Env) (table : Nat) (estimator : Estimator) :
    Trace × Except String Nat :=
  match env.predict estimator table with
  | .error msg => (emptyTrace, .error msg)
  | .ok predictions => (emptyTrace, .ok predictions)

/-- The fourteen training entry points of the file (every function except
`classify_new_data` and the two helpers). -/
inductive Entry where
  | classifyRandomForest
  | classifyExtraTrees
  | classifyAdaboost
  | classifyGradientBoosting
  | regressRandomForest
  | regressExtraTrees
  | regressAdaboost
  | regressGradientBoosting
  | classifyLinearSVC
  | classifySVC
  | regressSVR
  | regressRidge
  | regressLasso
  | regressElasticnet
  | classifyKneighbors
  | regressKneighbors
  deriving DecidableEq

/-- A uniform bundle of every caller-supplied argument appearing in the
signatures of the training entry points; each entry point reads exactly the
fields its Python signature declares. -/
structure Args where
  output_dir : String
  table : Nat
  metadata : Nat
  category : String
  test_size : Rat
  step : Rat
  cv : Int
  random_state : Option Int
  n_jobs : Int
  n_estimators : Int
  optimize_feature_selection : Bool
  parameter_tuning : Bool
  kernel : String
  algorithm : String
  solver : String
  deriving DecidableEq

/-- Dispatch a training entry point on a uniform argument bundle. -/
def runEntry (e : Entry) (env : Env) (a : Args) : Trace × Except String Unit :=
  match e with
  | .classifyRandomForest =>
      classify_random_forest env a.output_dir a.table a.metadata a.category
        a.test_size a.step a.cv a.random_state a.n_jobs a.n_estimators
        a.optimize_feature_selection a.parameter_tuning
  | .classifyExtraTrees =>
      classify_extra_trees env a.output_dir a.table a.metadata a.category
        a.test_size a.step a.cv a.random_state a.n_jobs a.n_estimators
        a.optimize_feature_selection a.parameter_tuning
  | .classifyAdaboost =>
      classify_adaboost env a.output_dir a.table a.metadata a.category
        a.test_size a.step a.cv a.random_state a.n_jobs a.n_estimators
        a.optimize_feature_selection a.parameter_tuning
  | .classifyGradientBoosting =>
      classify_gradient_boosting env a.output_dir a.table a.metadata a.category
        a.test_size a.step a.cv a.random_state a.n_jobs a.n_estimators
        a.optimize_feature_selection a.parameter_tuning
  | .regressRandomForest =>
      regress_random_forest env a.output_dir a.table a.metadata a.category
        a.test_size a.step a.cv a.random_state a.n_jobs a.n_estimators
        a.optimize_feature_selection a.parameter_tuning
  | .regressExtraTrees =>
      regress_extra_trees env a.output_dir a.table a.metadata a.category
        a.test_size a.step a.cv a.random_state a.n_jobs a.n_estimators
        a.optimize_feature_selection a.parameter_tuning
  | .regressAdaboost =>
      regress_adaboost env a.output_dir a.table a.metadata a.category
        a.test_size a.step a.cv a.random_state a.n_jobs a.n_estimators
        a.optimize_feature_selection a.parameter_tuning
  | .regressGradientBoosting =>
      regress_gradient_boosting env a.output_dir a.table a.metadata a.category
        a.test_size a.step a.cv a.random_state a.n_jobs a.n_estimators
        a.optimize_feature_selection a.parameter_tuning
  | .classifyLinearSVC =>
      classify_linearSVC env a.output_dir a.table a.metadata a.category
        a.test_size a.step a.cv a.random_state a.n_jobs
        a.parameter_tuning a.optimize_feature_selection
  | .classifySVC =>
      classify_SVC env a.output_dir a.table a.metadata a.category
        a.test_size a.step a.cv a.random_state a.n_jobs
        a.parameter_tuning a.optimize_feature_selection a.kernel
  | .regressSVR =>
      regress_SVR env a.output_dir a.table a.metadata a.category
        a.test_size a.step a.cv a.random_state a.n_jobs
        a.parameter_tuning a.optimize_feature_selection a.kernel
  | .regressRidge =>
      regress_ridge env a.output_dir a.table a.metadata a.category
        a.test_size a.step a.cv a.random_state a.n_jobs
        a.parameter_tuning a.optimize_feature_selection a.solver
  | .regressLasso =>
      regress_lasso env a.output_dir a.table a.metadata a.category
        a.test_size a.step a.cv a.random_state a.n_jobs
        a.optimize_feature_selection a.parameter_tuning
  | .regressElasticnet =>
      regress_elasticnet env a.output_dir a.table a.metadata a.category
        a.test_size a.step a.cv a.random_state a.n_jobs
        a.optimize_feature_selection a.parameter_tuning
  | .classifyKneighbors =>
      classify_kneighbors env a.output_dir a.table a.metadata a.category
        a.test_size a.step a.cv a.random_state a.n_jobs
        a.parameter_tuning a.algorithm
  | .regressKneighbors =>
      regress_kneighbors env a.output_dir a.table a.metadata a.category
        a.test_size a.step a.cv a.random_state a.n_jobs
        a.parameter_tuning a.algorithm

/-- The entry points whose Python name starts with `classify_`. -/
def isClassifyEntry : Entry → Bool
  | .classifyRandomForest | .classifyExtraTrees | .classifyAdaboost
  | .classifyGradientBoosting | .classifyLinearSVC | .classifySVC
  | .classifyKneighbors => true
  | _ => false

/-- Estimators built by a classifier constructor of the sklearn library. -/
def isClassifierEstimator : Estimator → Bool
  | .randomForestClassifier _ _ | .extraTreesClassifier _ _
  | .adaBoostClassifier _ _ | .gradientBoostingClassifier _
  | .linearSVC | .svc _ | .kNeighborsClassifier _
  | .decisionTreeClassifier => true
  | _ => false

/-- Estimators built by a regressor constructor of the sklearn library. -/
def isRegressorEstimator : Estimator → Bool
  | .randomForestRegressor _ _ | .extraTreesRegressor _ _
  | .adaBoostRegressor _ _ | .gradientBoostingRegressor _
  | .svr _ | .ridge _ | .lasso | .elasticNet
  | .kNeighborsRegressor _ | .decisionTreeRegressor => true
  | _ => false

/-- A concrete, never-failing environment, used to evaluate the entry points
at concrete inputs. -/
def pureEnv : Env where
  load_data := fun t _ _ => .ok (t + 1, fun s => s.length)
  tune_parameters := fun _ _ _ _ _ _ _ => .ok (Estimator.external 7)
  split_optimize_classify := fun a => .ok ⟨a.estimator, 11, 12, 13⟩
  visualize := fun _ => .ok ()
  predict := fun _ t => .ok (t * 2)

/-- A concrete argument bundle, used to evaluate the entry points at concrete
inputs. -/
def argsA : Args where
  output_dir := "out"
  table := 3
  metadata := 4
  category := "bodysite"
  test_size := 0.2
  step := 0.05
  cv := 5
  random_state := none
  n_jobs := 1
  n_estimators := 100
  optimize_feature_selection := true
  parameter_tuning := true
  kernel := "rbf"
  algorithm := "auto"
  solver := "auto"

/-- A message originates in an external collaborator: some collaborator call
can fail with exactly this message. -/
def envCanRaise (env : Env) (msg : String) : Prop :=
  (∃ t m b, env.load_data t m b = .error msg) ∨
  (∃ f tg est pd nj cv rs,
    env.tune_parameters f tg est pd nj cv rs = .error msg) ∨
  (∃ a, env.split_optimize_classify a = .error msg) ∨
  (∃ v, env.visualize v = .error msg) ∨
  (∃ est t, env.predict est t = .error msg)

theorem soc_then_visualize_warnings (env : Env) (pre : Trace) (a : SOCArgs)
    (od : String) (ofs : Bool) :
    (soc_then_visualize env pre a od ofs).1.warnings = pre.warnings := by
  cases hs : env.split_optimize_classify a with
  | error msg => simp [soc_then_visualize, hs]
  | ok r =>
      cases h2 : env.visualize (visArgsOf od r ofs) with
      | error msg => simp [soc_then_visualize, hs, h2]
      | ok u => simp [soc_then_visualize, hs, h2]

theorem soc_then_visualize_soc_calls (env : Env) (pre : Trace) (a : SOCArgs)
    (od : String) (ofs : Bool) :
    (soc_then_visualize env pre a od ofs).1.soc_calls = pre.soc_calls ++ [a] := by
  cases hs : env.split_optimize_classify a with
  | error msg => simp [soc_then_visualize, hs]
  | ok r =>
      cases h2 : env.visualize (visArgsOf od r ofs) with
      | error msg => simp [soc_then_visualize, hs, h2]
      | ok u => simp [soc_then_visualize, hs, h2]

theorem soc_then_visualize_load_calls (env : Env) (pre : Trace) (a : SOCArgs)
    (od : String) (ofs : Bool) :
    (soc_then_visualize env pre a od ofs).1.load_calls = pre.load_calls := by
  cases hs : env.split_optimize_classify a with
  | error msg => simp [soc_then_visualize, hs]
  | ok r =>
      cases h2 : env.visualize (visArgsOf od r ofs) with
      | error msg => simp [soc_then_visualize, hs, h2]
      | ok u => simp [soc_then_visualize, hs, h2]

theorem soc_then_visualize_tune_calls (env : Env) (pre : Trace) (a : SOCArgs)
    (od : String) (ofs : Bool) :
    (soc_then_visualize env pre a od ofs).1.tune_calls = pre.tune_calls := by
  cases hs : env.split_optimize_classify a with
  | error msg => simp [soc_then_visualize, hs]
  | ok r =>
      cases h2 : env.visualize (visArgsOf od r ofs) with
      | error msg => simp [soc_then_visualize, hs, h2]
      | ok u => simp [soc_then_visualize, hs, h2]

theorem soc_then_visualize_vis_mem (env : Env) (pre : Trace) (a : SOCArgs)
    (od : String) (ofs : Bool) (v : VisArgs)
    (hv : v ∈ (soc_then_visualize env pre a od ofs).1.visualize_calls) :
    v ∈ pre.visualize_calls ∨
      (v.output_dir = od ∧ v.optimize_feature_selection = ofs) := by
  cases hs : env.split_optimize_classify a with
  | error msg =>
      simp [soc_then_visualize, hs] at hv
      exact Or.inl hv
  | ok r =>
      cases h2 : env.visualize (visArgsOf od r ofs) with
      | error msg =>
          simp [soc_then_visualize, hs, h2] at hv
          rcases hv with hv | hv
          · exact Or.inl hv
          · subst hv
            exact Or.inr ⟨rfl, rfl⟩
      | ok u =>
          simp [soc_then_visualize, hs, h2] at hv
          rcases hv with hv | hv
          · exact Or.inl hv
          · subst hv
            exact Or.inr ⟨rfl, rfl⟩

theorem soc_then_visualize_ok_vis (env : Env) (pre : Trace) (a : SOCArgs)
    (od : String) (ofs : Bool)
    (h : (soc_then_visualize env pre a od ofs).2 = .ok ()) :
    ∃ v : VisArgs, v.output_dir = od ∧ v.optimize_feature_selection = ofs ∧
      (soc_then_visualize env pre a od ofs).1.visualize_calls =
        pre.visualize_calls ++ [v] := by
  cases hs : env.split_optimize_classify a with
  | error msg => simp [soc_then_visualize, hs] at h
  | ok r =>
      cases h2 : env.visualize (visArgsOf od r ofs) with
      | error msg => simp [soc_then_visualize, hs, h2] at h
      | ok u =>
          refine ⟨visArgsOf od r ofs, rfl, rfl, ?_⟩
          simp [soc_then_visualize, hs, h2]

theorem soc_then_visualize_result (env : Env) (pre : Trace) (a : SOCArgs)
    (od : String) (ofs : Bool) :
    (soc_then_visualize env pre a od ofs).2 = .ok () ∨
      ∃ msg, (soc_then_visualize env pre a od ofs).2 = .error msg ∧
        (env.split_optimize_classify a = .error msg ∨
         ∃ v, env.visualize v = .error msg) := by
  cases hs : env.split_optimize_classify a with
  | error msg =>
      exact Or.inr ⟨msg, by simp [soc_then_visualize, hs], Or.inl rfl⟩
  | ok r =>
      cases h2 : env.visualize (visArgsOf od r ofs) with
      | error msg =>
          exact Or.inr ⟨msg, by simp [soc_then_visualize, hs, h2], Or.inr ⟨_, h2⟩⟩
      | ok u => exact Or.inl (by simp [soc_then_visualize, hs, h2])

theorem soc_then_visualize_no_raise (env : Env) (pre : Trace) (a : SOCArgs)
    (od : String) (ofs : Bool) :
    (soc_then_visualize env pre a od ofs).2 = .ok () ∨
      ∃ msg, (soc_then_visualize env pre a od ofs).2 = .error msg ∧
        envCanRaise env msg := by
  rcases soc_then_visualize_result env pre a od ofs with h | ⟨msg, h2, hsrc⟩
  · exact Or.inl h
  · refine Or.inr ⟨msg, h2, ?_⟩
    rcases hsrc with hs | ⟨v, hv⟩
    · exact Or.inr (Or.inr (Or.inl ⟨a, hs⟩))
    · exact Or.inr (Or.inr (Or.inr (Or.inl ⟨v, hv⟩)))

theorem runEntry_shape (e : Entry) (env : Env) (a : Args) :
    (∃ pre b s, pre.visualize_calls = [] ∧
        runEntry e env a = soc_then_visualize env pre s a.output_dir b) ∨
    (∃ pre msg, pre.visualize_calls = [] ∧
        runEntry e env a = (pre, .error msg) ∧ envCanRaise env msg) := by
  cases e <;>
    first
    | (simp only [runEntry, classify_random_forest, classify_extra_trees,
         classify_gradient_boosting, regress_random_forest,
         regress_extra_trees, regress_gradient_boosting, classify_linearSVC,
         classify_SVC, regress_SVR, regress_ridge, regress_lasso,
         regress_elasticnet, classify_kneighbors, regress_kneighbors]
       exact Or.inl ⟨_, _, _, rfl, rfl⟩)
    | (simp only [runEntry, classify_adaboost, regress_adaboost]
       cases hpt : a.parameter_tuning with
       | false =>
           rw [if_neg Bool.false_ne_true]
           exact Or.inl ⟨_, _, _, rfl, rfl⟩
       | true =>
           rw [if_pos rfl]
           cases hl : env.load_data a.table a.metadata true with
           | error msg =>
               exact Or.inr ⟨_, msg, rfl, rfl, Or.inl ⟨_, _, _, hl⟩⟩
           | ok ftg =>
               obtain ⟨f, tg⟩ := ftg
               dsimp only
               first
               | (cases ht : env.tune_parameters f (tg a.category)
                     Estimator.decisionTreeClassifier
                     (ensemble_params.filter (fun kv => kv.1 != "bootstrap"))
                     a.n_jobs a.cv a.random_state with
                  | error msg =>
                      exact Or.inr ⟨_, msg, rfl, rfl,
                        Or.inr (Or.inl ⟨_, _, _, _, _, _, _, ht⟩)⟩
                  | ok tuned => exact Or.inl ⟨_, _, _, rfl, rfl⟩)
               | (cases ht : env.tune_parameters f (tg a.category)
                     Estimator.decisionTreeRegressor
                     (ensemble_params.filter (fun kv => kv.1 != "bootstrap"))
                     a.n_jobs a.cv a.random_state with
                  | error msg =>
                      exact Or.inr ⟨_, msg, rfl, rfl,
                        Or.inr (Or.inl ⟨_, _, _, _, _, _, _, ht⟩)⟩
                  | ok tuned => exact Or.inl ⟨_, _, _, rfl, rfl⟩))

/-- C1: for every call to `classify_SVC` or `regress_SVR` with a kernel other
than `linear`, and for every caller-supplied value of
`optimize_feature_selection`, the value of `optimize_feature_selection`
forwarded to `split_optimize_classify` is `false`, `calc_feature_importance`
is forwarded as `false`, and a `UserWarning` is emitted stating that the
estimator does not support recursive feature extraction with the parameter
settings requested. -/
theorem svm_nonlinear_disables_selection (env : Env) (od : String)
    (table metadata : Nat) (category : String) (test_size step : Rat)
    (cv : Int) (rs : Option Int) (nj : Int) (pt ofs : Bool) (kernel : String)
    (h : kernel ≠ "linear") :
    ((classify_SVC env od table metadata category test_size step cv rs nj pt
        ofs kernel).1.warnings = warn_feature_selection ∧
      (classify_SVC env od table metadata category test_size step cv rs nj pt
        ofs kernel).1.soc_calls.map SOCArgs.optimize_feature_selection = [false] ∧
      (classify_SVC env od table metadata category test_size step cv rs nj pt
        ofs kernel).1.soc_calls.map SOCArgs.calc_feature_importance = [false]) ∧
    ((regress_SVR env od table metadata category test_size step cv rs nj pt
        ofs kernel).1.warnings = warn_feature_selection ∧
      (regress_SVR env od table metadata category test_size step cv rs nj pt
        ofs kernel).1.soc_calls.map SOCArgs.optimize_feature_selection = [false] ∧
      (regress_SVR env od table metadata category test_size step cv rs nj pt
        ofs kernel).1.soc_calls.map SOCArgs.calc_feature_importance = [false]) ∧
    warn_feature_selection.map PyWarning.category = ["UserWarning"] := by
  refine ⟨⟨?_, ?_, ?_⟩, ⟨?_, ?_, ?_⟩, rfl⟩ <;>
    simp [classify_SVC, regress_SVR, svm_set, h, soc_then_visualize_warnings,
      soc_then_visualize_soc_calls, emptyTrace]

/-- Witness for C1 at a concrete non-linear kernel. -/
theorem svm_nonlinear_disables_selection_witness :
    ("rbf" : String) ≠ "linear" ∧
    (classify_SVC pureEnv "out" 3 4 "bodysite" 0.2 0.05 5 none 1 false true
      "rbf").1.warnings = warn_feature_selection :=
  ⟨by decide,
    (svm_nonlinear_disables_selection pureEnv "out" 3 4 "bodysite" 0.2 0.05 5
      none 1 false true "rbf" (by decide)).1.1⟩

/-- C4: for every call to `classify_SVC` or `regress_SVR` with kernel equal to
`linear`, `calc_feature_importance` is forwarded to
`split_optimize_classify` as `true`, the caller-supplied
`optimize_feature_selection` value is forwarded unchanged, and no warning is
emitted. -/
theorem svm_linear_passthrough (env : Env) (od : String)
    (table metadata : Nat) (category : String) (test_size step : Rat)
    (cv : Int) (rs : Option Int) (nj : Int) (pt ofs : Bool) (kernel : String)
    (h : kernel = "linear") :
    ((classify_SVC env od table metadata category test_size step cv rs nj pt
        ofs kernel).1.warnings = [] ∧
      (classify_SVC env od table metadata category test_size step cv rs nj pt
        ofs kernel).1.soc_calls.map SOCArgs.optimize_feature_selection = [ofs] ∧
      (classify_SVC env od table metadata category test_size step cv rs nj pt
        ofs kernel).1.soc_calls.map SOCArgs.calc_feature_importance = [true]) ∧
    ((regress_SVR env od table metadata category test_size step cv rs nj pt
        ofs kernel).1.warnings = [] ∧
      (regress_SVR env od table metadata category test_size step cv rs nj pt
        ofs kernel).1.soc_calls.map SOCArgs.optimize_feature_selection = [ofs] ∧
      (regress_SVR env od table metadata category test_size step cv rs nj pt
        ofs kernel).1.soc_calls.map SOCArgs.calc_feature_importance = [true]) := by
  subst h
  refine ⟨⟨?_, ?_, ?_⟩, ?_, ?_, ?_⟩ <;>
    simp [classify_SVC, regress_SVR, svm_set, soc_then_visualize_warnings,
      soc_then_visualize_soc_calls, emptyTrace]

/-- Witness for C4 at the linear kernel. -/
theorem svm_linear_passthrough_witness :
    ("linear" : String) = "linear" ∧
    (classify_SVC pureEnv "out" 3 4 "bodysite" 0.2 0.05 5 none 1 false true
      "linear").1.soc_calls.map SOCArgs.optimize_feature_selection = [true] :=
  ⟨rfl,
    (svm_linear_passthrough pureEnv "out" 3 4 "bodysite" 0.2 0.05 5 none 1
      false true "linear" rfl).1.2.1⟩

/-- C8: for every table and estimator, `classify_new_data` returns exactly the
value of `estimator.predict(table)` on the raw table, performing no
collaborator call other than `predict` and in particular no preprocessing by
`load_data`. -/
theorem classify_new_data_predicts_directly (env : Env) (table : Nat)
    (estimator : Estimator) :
    (classify_new_data env table estimator).2 = env.predict estimator table ∧
    (classify_new_data env table estimator).1 = emptyTrace := by
  cases h : env.predict estimator table <;> simp [classify_new_data, h]

/-- C10: `classify_kneighbors` and `regress_kneighbors` always pass
`optimize_feature_selection = false` and `calc_feature_importance = false` to
`split_optimize_classify` and `false` as the final argument of `visualize`;
their signatures expose no parameter that could enable either. -/
theorem kneighbors_no_feature_selection (env : Env) (od : String)
    (table metadata : Nat) (category : String) (test_size step : Rat)
    (cv : Int) (rs : Option Int) (nj : Int) (pt : Bool) (algorithm : String) :
    ((classify_kneighbors env od table metadata category test_size step cv rs
        nj pt algorithm).1.soc_calls.map SOCArgs.optimize_feature_selection
      = [false] ∧
     (classify_kneighbors env od table metadata category test_size step cv rs
        nj pt algorithm).1.soc_calls.map SOCArgs.calc_feature_importance
      = [false] ∧
     (classify_kneighbors env od table metadata category test_size step cv rs
        nj pt algorithm).1.visualize_calls.all
        (fun v => !v.optimize_feature_selection) = true) ∧
    ((regress_kneighbors env od table metadata category test_size step cv rs
        nj pt algorithm).1.soc_calls.map SOCArgs.optimize_feature_selection
      = [false] ∧
     (regress_kneighbors env od table metadata category test_size step cv rs
        nj pt algorithm).1.soc_calls.map SOCArgs.calc_feature_importance
      = [false] ∧
     (regress_kneighbors env od table metadata category test_size step cv rs
        nj pt algorithm).1.visualize_calls.all
        (fun v => !v.optimize_feature_selection) = true) := by
  have vis : ∀ (pre : Trace) (a : SOCArgs) (d : String),
      pre.visualize_calls = [] →
      (soc_then_visualize env pre a d false).1.visualize_calls.all
        (fun v => !v.optimize_feature_selection) = true := by
    intro pre a d hpre
    rw [List.all_eq_true]
    intro v hv
    rcases soc_then_visualize_vis_mem _ _ _ _ _ v hv with hmem | ⟨_, hofs⟩
    · rw [hpre] at hmem
      simp at hmem
    · simp [hofs]
  refine ⟨⟨?_, ?_, ?_⟩, ?_, ?_, ?_⟩ <;>
    first
    | (simp only [classify_kneighbors, regress_kneighbors]
       exact vis _ _ _ rfl)
    | (simp [classify_kneighbors, regress_kneighbors,
        soc_then_visualize_soc_calls, emptyTrace])

/-- C2: `classify_adaboost` and `regress_adaboost` pre-tune their base
estimator via `tune_parameters` exactly when the caller passes
`parameter_tuning = true` (and the data loads successfully), and in every case
the `parameter_tuning` argument they forward to `split_optimize_classify` is
`false`. -/
theorem adaboost_pretunes_iff_parameter_tuning (env : Env) (od : String)
    (table metadata : Nat) (category : String) (test_size step : Rat)
    (cv : Int) (rs : Option Int) (nj ne : Int) (ofs pt : Bool)
    (ftg : Nat × (String → Nat))
    (h : env.load_data table metadata true = .ok ftg) :
    ((classify_adaboost env od table metadata category test_size step cv rs nj
        ne ofs pt).1.soc_calls.all (fun s => !s.parameter_tuning) = true ∧
      ((classify_adaboost env od table metadata category test_size step cv rs
        nj ne ofs pt).1.tune_calls ≠ [] ↔ pt = true)) ∧
    ((regress_adaboost env od table metadata category test_size step cv rs nj
        ne ofs pt).1.soc_calls.all (fun s => !s.parameter_tuning) = true ∧
      ((regress_adaboost env od table metadata category test_size step cv rs
        nj ne ofs pt).1.tune_calls ≠ [] ↔ pt = true)) := by
  obtain ⟨f, tg⟩ := ftg
  cases pt with
  | false =>
      refine ⟨⟨?_, ?_⟩, ?_, ?_⟩ <;>
        simp [classify_adaboost, regress_adaboost,
          soc_then_visualize_soc_calls, soc_then_visualize_tune_calls,
          emptyTrace]
  | true =>
      refine ⟨⟨?_, ?_⟩, ?_, ?_⟩ <;>
        simp only [classify_adaboost, regress_adaboost, if_true, h] <;>
        first
        | (cases ht : env.tune_parameters f (tg category)
              Estimator.decisionTreeClassifier
              (ensemble_params.filter (fun kv => kv.1 != "bootstrap"))
              nj cv rs <;>
            simp [ht, soc_then_visualize_soc_calls,
              soc_then_visualize_tune_calls, emptyTrace] <;> done)
        | (cases ht : env.tune_parameters f (tg category)
              Estimator.decisionTreeRegressor
              (ensemble_params.filter (fun kv => kv.1 != "bootstrap"))
              nj cv rs <;>
            simp [ht, soc_then_visualize_soc_calls,
              soc_then_visualize_tune_calls, emptyTrace])

/-- Witness for C2: with the concrete environment and `parameter_tuning`
set, the base estimator is tuned. -/
theorem adaboost_pretunes_iff_parameter_tuning_witness :
    pureEnv.load_data 3 4 true = .ok (4, fun s => s.length) ∧
    (classify_adaboost pureEnv "out" 3 4 "bodysite" 0.2 0.05 5 none 1 100 true
      true).1.tune_calls ≠ [] :=
  ⟨rfl,
    ((adaboost_pretunes_iff_parameter_tuning pureEnv "out" 3 4 "bodysite" 0.2
      0.05 5 none 1 100 true true (4, fun s => s.length) rfl).1.2).mpr rfl⟩

/-- C7: when `parameter_tuning` is `true` and the data loads, the adaboost
entry points call `load_data(table, metadata, transpose=True)` and then call
`tune_parameters` with the loaded features, the loaded target values of the
chosen category, the fresh decision-tree base estimator, the bootstrap-free
`param_dist`, and the `n_jobs`, `cv` and `random_state` of the call. -/
theorem adaboost_tune_args (env : Env) (od : String) (table metadata : Nat)
    (category : String) (test_size step : Rat) (cv : Int) (rs : Option Int)
    (nj ne : Int) (ofs : Bool) (f : Nat) (tg : String → Nat)
    (h : env.load_data table metadata true = .ok (f, tg)) :
    ((classify_adaboost env od table metadata category test_size step cv rs nj
        ne ofs true).1.load_calls = [⟨table, metadata, true⟩] ∧
      (classify_adaboost env od table metadata category test_size step cv rs
        nj ne ofs true).1.tune_calls =
        [⟨f, tg category, Estimator.decisionTreeClassifier,
          ensemble_params.filter (fun kv => kv.1 != "bootstrap"),
          nj, cv, rs⟩]) ∧
    ((regress_adaboost env od table metadata category test_size step cv rs nj
        ne ofs true).1.load_calls = [⟨table, metadata, true⟩] ∧
      (regress_adaboost env od table metadata category test_size step cv rs
        nj ne ofs true).1.tune_calls =
        [⟨f, tg category, Estimator.decisionTreeRegressor,
          ensemble_params.filter (fun kv => kv.1 != "bootstrap"),
          nj, cv, rs⟩]) := by
  refine ⟨⟨?_, ?_⟩, ?_, ?_⟩ <;>
    simp only [classify_adaboost, regress_adaboost, if_true, h] <;>
    first
    | (cases ht : env.tune_parameters f (tg category)
          Estimator.decisionTreeClassifier
          (ensemble_params.filter (fun kv => kv.1 != "bootstrap"))
          nj cv rs <;>
        simp [ht, soc_then_visualize_load_calls,
          soc_then_visualize_tune_calls, emptyTrace] <;> done)
    | (cases ht : env.tune_parameters f (tg category)
          Estimator.decisionTreeRegressor
          (ensemble_params.filter (fun kv => kv.1 != "bootstrap"))
          nj cv rs <;>
        simp [ht, soc_then_visualize_load_calls,
          soc_then_visualize_tune_calls, emptyTrace])

/-- Witness for C7 with the concrete environment. -/
theorem adaboost_tune_args_witness :
    pureEnv.load_data 3 4 true = .ok (4, fun s => s.length) ∧
    (classify_adaboost pureEnv "out" 3 4 "bodysite" 0.2 0.05 5 none 1 100 true
      true).1.load_calls = [⟨3, 4, true⟩] :=
  ⟨rfl,
    (adaboost_tune_args pureEnv "out" 3 4 "bodysite" 0.2 0.05 5 none 1 100
      true 4 (fun s => s.length) rfl).1.1⟩

/-- C9: the hyperparameter search space built by the adaboost and gradient
boosting entry points is `ensemble_params` with exactly the `bootstrap` key
removed, i.e. the four keys `max_depth`, `max_features`, `min_samples_split`
and `min_weight_fraction_leaf` with their `ensemble_params` values; every
`split_optimize_classify` call (and, for the adaboost functions, every
`tune_parameters` call) receives exactly this dictionary. -/
theorem boosting_param_dist_drops_bootstrap (env : Env) (od : String)
    (table metadata : Nat) (category : String) (test_size step : Rat)
    (cv : Int) (rs : Option Int) (nj ne : Int) (ofs pt : Bool) :
    ensemble_params.filter (fun kv => kv.1 != "bootstrap") =
      [("max_depth", .list [.int 4, .int 8, .int 16, .pynone]),
       ("max_features", .list [.pynone, .str "sqrt", .str "log2", .float 1 1]),
       ("min_samples_split", .list [.float 1 3, .float 1 2, .float 1 1]),
       ("min_weight_fraction_leaf",
         .list [.float 1 4, .float 1 3, .float 1 2])] ∧
    (classify_gradient_boosting env od table metadata category test_size step
        cv rs nj ne ofs pt).1.soc_calls.map SOCArgs.param_dist =
      [ensemble_params.filter (fun kv => kv.1 != "bootstrap")] ∧
    (regress_gradient_boosting env od table metadata category test_size step
        cv rs nj ne ofs pt).1.soc_calls.map SOCArgs.param_dist =
      [ensemble_params.filter (fun kv => kv.1 != "bootstrap")] ∧
    (classify_adaboost env od table metadata category test_size step cv rs nj
        ne ofs pt).1.soc_calls.all (fun s =>
          s.param_dist = ensemble_params.filter (fun kv => kv.1 != "bootstrap"))
      = true ∧
    (classify_adaboost env od table metadata category test_size step cv rs nj
        ne ofs pt).1.tune_calls.all (fun t =>
          t.param_dist = ensemble_params.filter (fun kv => kv.1 != "bootstrap"))
      = true ∧
    (regress_adaboost env od table metadata category test_size step cv rs nj
        ne ofs pt).1.soc_calls.all (fun s =>
          s.param_dist = ensemble_params.filter (fun kv => kv.1 != "bootstrap"))
      = true ∧
    (regress_adaboost env od table metadata category test_size step cv rs nj
        ne ofs pt).1.tune_calls.all (fun t =>
          t.param_dist = ensemble_params.filter (fun kv => kv.1 != "bootstrap"))
      = true := by
  refine ⟨by decide, ?_, ?_, ?_, ?_, ?_, ?_⟩
  · simp [classify_gradient_boosting, soc_then_visualize_soc_calls, emptyTrace]
  · simp [regress_gradient_boosting, soc_then_visualize_soc_calls, emptyTrace]
  all_goals
    cases pt with
    | false =>
        simp [classify_adaboost, regress_adaboost,
          soc_then_visualize_soc_calls, soc_then_visualize_tune_calls,
          emptyTrace]
    | true =>
        cases hl : env.load_data table metadata true with
        | error msg =>
            simp [classify_adaboost, regress_adaboost, hl, emptyTrace]
        | ok ftg =>
            obtain ⟨f, tg⟩ := ftg
            first
            | (cases ht : env.tune_parameters f (tg category)
                  Estimator.decisionTreeClassifier
                  (ensemble_params.filter (fun kv => kv.1 != "bootstrap"))
                  nj cv rs <;>
                simp [classify_adaboost, hl, ht,
                  soc_then_visualize_soc_calls, soc_then_visualize_tune_calls,
                  emptyTrace] <;> done)
            | (cases ht : env.tune_parameters f (tg category)
                  Estimator.decisionTreeRegressor
                  (ensemble_params.filter (fun kv => kv.1 != "bootstrap"))
                  nj cv rs <;>
                simp [regress_adaboost, hl, ht,
                  soc_then_visualize_soc_calls, soc_then_visualize_tune_calls,
                  emptyTrace] <;> done)

/-- C3: every `classify_*` entry point hands `split_optimize_classify` a
classifier estimator and omits the `scoring` and `classification` arguments
(taking the classification scoring path), while every `regress_*` entry point
hands it a regressor estimator together with `scoring = mean_squared_error`
and `classification = False`. -/
theorem classify_regress_scoring_paths (e : Entry) (env : Env) (a : Args) :
    ((runEntry e env a).1.soc_calls.all fun s =>
      if isClassifyEntry e then
        decide (s.scoring = none) && decide (s.classification = none) &&
          isClassifierEstimator s.estimator
      else
        decide (s.scoring = some Scoring.mean_squared_error) &&
          decide (s.classification = some false) &&
          isRegressorEstimator s.estimator) = true := by
  cases e <;>
    first
    | (simp [runEntry, classify_random_forest, classify_extra_trees,
        classify_gradient_boosting, regress_random_forest,
        regress_extra_trees, regress_gradient_boosting, classify_linearSVC,
        classify_SVC, regress_SVR, regress_ridge, regress_lasso,
        regress_elasticnet, classify_kneighbors, regress_kneighbors,
        isClassifyEntry, isClassifierEstimator, isRegressorEstimator,
        soc_then_visualize_soc_calls, emptyTrace] <;> done)
    | (cases hpt : a.parameter_tuning with
       | false =>
           simp [runEntry, classify_adaboost, regress_adaboost, hpt,
             isClassifyEntry, isClassifierEstimator, isRegressorEstimator,
             soc_then_visualize_soc_calls, emptyTrace]
       | true =>
           cases hl : env.load_data a.table a.metadata true with
           | error msg =>
               simp [runEntry, classify_adaboost, regress_adaboost, hpt, hl,
                 isClassifyEntry, emptyTrace]
           | ok ftg =>
               obtain ⟨f, tg⟩ := ftg
               first
               | (cases ht : env.tune_parameters f (tg a.category)
                     Estimator.decisionTreeClassifier
                     (ensemble_params.filter (fun kv => kv.1 != "bootstrap"))
                     a.n_jobs a.cv a.random_state <;>
                   simp [runEntry, classify_adaboost, hpt, hl, ht,
                     isClassifyEntry, isClassifierEstimator,
                     soc_then_visualize_soc_calls, emptyTrace] <;> done)
               | (cases ht : env.tune_parameters f (tg a.category)
                     Estimator.decisionTreeRegressor
                     (ensemble_params.filter (fun kv => kv.1 != "bootstrap"))
                     a.n_jobs a.cv a.random_state <;>
                   simp [runEntry, regress_adaboost, hpt, hl, ht,
                     isClassifyEntry, isRegressorEstimator,
                     soc_then_visualize_soc_calls, emptyTrace] <;> done))

/-- C5 counterexample: `classify_new_data` returns a value (the predictions)
and writes nothing to any output directory via `visualize`, so the claim that
every function of the file produces its output only as a side-effect report
via `visualize` and returns no value fails at `classify_new_data`. -/
theorem classify_new_data_returns_value :
    (classify_new_data pureEnv 3 (Estimator.external 0)).2 = Except.ok 6 ∧
    (classify_new_data pureEnv 3 (Estimator.external 0)).1.visualize_calls
      = [] :=
  ⟨rfl, rfl⟩

/-- C5 (amended): every training entry point that completes normally produces
its report exactly once, via `visualize` targeted at `output_dir`, and
returns no value, while `classify_new_data` returns the predictions and
produces no `visualize` report at all. -/
theorem training_entries_output_via_visualize (e : Entry) (env : Env)
    (a : Args) (h : (runEntry e env a).2 = .ok ()) :
    (runEntry e env a).1.visualize_calls.map VisArgs.output_dir
      = [a.output_dir] ∧
    ∀ (env2 : Env) (t : Nat) (est : Estimator),
      (classify_new_data env2 t est).1.visualize_calls = [] := by
  refine ⟨?_, ?_⟩
  · rcases runEntry_shape e env a with
      ⟨pre, b, sarg, hpre, heq⟩ | ⟨pre, msg, hpre, heq, hcan⟩
    · rw [heq] at h ⊢
      obtain ⟨v, hvod, hvofs, hcalls⟩ := soc_then_visualize_ok_vis _ _ _ _ _ h
      rw [hcalls, hpre]
      simp [hvod]
    · rw [heq] at h
      simp at h
  · intro env2 t est
    cases hp : env2.predict est t <;> simp [classify_new_data, hp, emptyTrace]

/-- Witness for the amended C5 at a concrete entry point and environment. -/
theorem training_entries_output_via_visualize_witness :
    (runEntry Entry.classifyRandomForest pureEnv argsA).2 = Except.ok () ∧
    (runEntry Entry.classifyRandomForest pureEnv
        argsA).1.visualize_calls.map VisArgs.output_dir = ["out"] :=
  ⟨rfl, by
    have h := training_entries_output_via_visualize Entry.classifyRandomForest
      pureEnv argsA rfl
    simpa [argsA] using h.1⟩

/-- C6: no function of the file raises or catches an exception of its own:
every call either completes normally or fails with a message that originates,
unchanged, in one of the external collaborators; the only error-adjacent
behaviour originating in the file is the (non-fatal) warning recorded in the
trace. -/
theorem no_exceptions_originate_in_file (e : Entry) (env : Env) (a : Args) :
    ((runEntry e env a).2 = .ok () ∨
      ∃ msg, (runEntry e env a).2 = .error msg ∧ envCanRaise env msg) ∧
    ∀ (t : Nat) (est : Estimator),
      (∃ n, (classify_new_data env t est).2 = .ok n) ∨
        ∃ msg, (classify_new_data env t est).2 = .error msg ∧
          envCanRaise env msg := by
  refine ⟨?_, ?_⟩
  · rcases runEntry_shape e env a with
      ⟨pre, b, sarg, hpre, heq⟩ | ⟨pre, msg, hpre, heq, hcan⟩
    · rw [heq]
      exact soc_then_visualize_no_raise env _ _ _ _
    · exact Or.inr ⟨msg, by rw [heq], hcan⟩
  · intro t est
    cases hp : env.predict est t with
    | error msg =>
        exact Or.inr ⟨msg, by simp [classify_new_data, hp],
          Or.inr (Or.inr (Or.inr (Or.inr ⟨est, t, hp⟩)))⟩
    | ok n => exact Or.inl ⟨n, by simp [classify_new_data, hp]⟩

end Q2Classify
